import Mathlib

set_option maxRecDepth 100000

/-!
Verification development for the tinybmp BMP decoder.

The data model and operations below are shallow embeddings of the Rust
sources under src/: bytes are modelled as natural numbers below 256 held in
lists, machine usize arithmetic is modelled as Nat with explicit reduction
modulo 2 ^ 64 where the source can wrap, fallible operations return Except
or Option, and a Rust panic (slice index out of range, unwrap of None) is
modelled as a distinguished outcome (Option.none or a fault constructor).

Several modules declared in src/src/lib.rs (header, parser, color_table,
dynamic_bmp, raw_pixels) are not present under src/.  Definitions for those
parts are modelled from the specification and carry a doc comment starting
with: Modelled from the spec.  Everything else is translated from the source
files raw_bmp.rs, raw_iter.rs, reader.rs, iter.rs, pixels.rs and lib.rs.
-/

/-- Bit depth of a BMP image, from the header module interface used by
raw_bmp.rs and raw_iter.rs (the six supported depths, spec section 3). -/
inductive Bpp
  | Bits1
  | Bits4
  | Bits8
  | Bits16
  | Bits24
  | Bits32
deriving DecidableEq, Repr

/-- Number of bits per pixel for each Bpp variant. -/
def Bpp.bits : Bpp → Nat
  | .Bits1 => 1
  | .Bits4 => 4
  | .Bits8 => 8
  | .Bits16 => 16
  | .Bits24 => 24
  | .Bits32 => 32

/-- Row storage order of the pixel data region (header module interface). -/
inductive RowOrder
  | TopDown
  | BottomUp
deriving DecidableEq, Repr

/-- Modelled from the spec: channel masks for 16 and 32 bit pixel packing
(glossary and section 4.2); the ChannelMasks type lives in the missing
header module.  Four little-endian 32-bit masks for R, G, B, A. -/
structure ChannelMasks where
  r : Nat
  g : Nat
  b : Nat
  a : Nat
deriving DecidableEq, Repr

/-- Modelled from the spec: the RGB555 mask pattern (5 bits per channel). -/
def ChannelMasks.RGB555 : ChannelMasks := ⟨0x7C00, 0x03E0, 0x001F, 0⟩

/-- Modelled from the spec: the RGB565 mask pattern (5/6/5 bits). -/
def ChannelMasks.RGB565 : ChannelMasks := ⟨0xF800, 0x07E0, 0x001F, 0⟩

/-- Modelled from the spec: the RGB888-in-32-bits mask pattern. -/
def ChannelMasks.RGB888 : ChannelMasks := ⟨0xFF0000, 0x00FF00, 0x0000FF, 0⟩

/-- Parse error type, translated from src/src/lib.rs lines 291-323, plus the
UnsupportedChannelMasks variant which ColorType::from_header in
src/src/raw_bmp.rs (lines 145 and 160) returns although the enum listing in
lib.rs, an older iteration, omits it. -/
inductive ParseError
  | Header
  | UnsupportedBpp (value : Nat)
  | MismatchedBpp (value : Nat)
  | UnsupportedDynamicBmpFormat
  | UnexpectedEndOfFile
  | InvalidFileSignature
  | MissingColorTable
  | UnsupportedCompressionMethod (code : Nat)
  | UnsupportedHeaderLength (length : Nat)
  | UnsupportedChannelMasks
deriving DecidableEq, Repr

/-- Reader error type, translated from src/src/reader.rs lines 36-46.
Note that there is no address-out-of-bounds variant. -/
inductive BmpReaderError
  | ReadError
  | RequestedChunkTooLarge
  | BufferTooSmall
  | NullReader
deriving DecidableEq, Repr

/-- BMP header value, from the header module interface used throughout
raw_bmp.rs and lib.rs (field list shown in the lib.rs doc example, lines
76-87, and spec section 3).  image_size is split into width and height. -/
structure Header where
  file_size : Nat
  image_data_start : Nat
  bpp : Bpp
  width : Nat
  height : Nat
  image_data_len : Nat
  channel_masks : Option ChannelMasks
  row_order : RowOrder
deriving DecidableEq, Repr

/-- Modelled from the spec: bytes per packed pixel row, ceil(width x
bit_depth / 8) rounded up to a 4-byte boundary (spec section 4.1); the
bytes_per_row method lives in the missing header module. -/
def bytesPerRow (width : Nat) (bpp : Bpp) : Nat :=
  ((width * bpp.bits + 7) / 8 + 3) / 4 * 4

/-- Header.bytes_per_row as called by raw_bmp.rs and raw_iter.rs. -/
def Header.bytes_per_row (h : Header) : Nat := bytesPerRow h.width h.bpp

/-- Modelled from the spec: the color table, a byte region interpreted as an
array of 4-byte BGR0 entries (spec section 3); the ColorTable type lives in
the missing color_table module. -/
structure ColorTable where
  data : List Nat
deriving DecidableEq, Repr

/-- Modelled from the spec: number of 4-byte entries in the table. -/
def ColorTable.entryCount (t : ColorTable) : Nat := t.data.length / 4

/-- Modelled from the spec: ColorTable get resolves a palette index to a
24-bit color read from the 4-byte BGR0 entry; it returns none exactly when
the index is not below the entry count (spec section 4.3). -/
def ColorTable.get (t : ColorTable) (index : Nat) : Option Nat :=
  if index < t.entryCount then
    some (t.data.getD (4 * index + 2) 0 * 65536 +
          t.data.getD (4 * index + 1) 0 * 256 +
          t.data.getD (4 * index) 0)
  else none

/-- Little-endian 16-bit read at a byte offset; none on truncation. -/
def leU16 (bytes : List Nat) (off : Nat) : Option Nat := do
  let b0 ← bytes.get? off
  let b1 ← bytes.get? (off + 1)
  pure (b0 + 256 * b1)

/-- Little-endian 32-bit read at a byte offset; none on truncation. -/
def leU32 (bytes : List Nat) (off : Nat) : Option Nat := do
  let lo ← leU16 bytes off
  let hi ← leU16 bytes (off + 2)
  pure (lo + 65536 * hi)

/-- Lifts a truncated read to the parse error for truncation
(spec section 4.1: any truncation during these reads fails with
the unexpected-end-of-file condition). -/
def req {α : Type} : Option α → Except ParseError α
  | some a => .ok a
  | none => .error .UnexpectedEndOfFile

/-- Modelled from the spec: Header::parse_size, called by
RawBmp::from_reader (src/src/raw_bmp.rs line 74) but defined in the missing
parser module.  Per spec section 4.1 it reads the fixed 14-byte BMP file
prefix: the 2-byte signature, the little-endian 4-byte declared file size at
offset 2 and the little-endian 4-byte pixel-data start offset at offset 10. -/
def Header.parse_size (bytes : List Nat) : Except ParseError (Nat × Nat) := do
  let b0 ← req (bytes.get? 0)
  let b1 ← req (bytes.get? 1)
  if b0 ≠ 0x42 ∨ b1 ≠ 0x4D then throw .InvalidFileSignature
  let file_size ← req (leU32 bytes 2)
  let image_data_start ← req (leU32 bytes 10)
  pure (file_size, image_data_start)

/-- Modelled from the spec: Header::parse, called by RawBmp::from_slice and
RawBmp::from_reader (src/src/raw_bmp.rs lines 42 and 82) but defined in the
missing header and parser modules.  It follows spec sections 4.1 and 6:
2-byte BM signature (mismatch fails with InvalidFileSignature), little-endian
file size at offset 2, pixel-data offset at offset 10, header length at
offset 14 selecting the variant (the 40-byte core variant and the 124-byte
mask-carrying variant are supported here, other lengths fail with
UnsupportedHeaderLength), width and height at offsets 18 and 22 (a negative
twos-complement height selects TopDown), bit depth at offset 28 (values
outside the six supported fail with UnsupportedBpp), compression at offset
30 (any nonzero code fails with UnsupportedCompressionMethod), four channel
mask fields following the core fields for the mask-carrying variant, and for
bit depths of at most 8 a palette of 4-byte entries immediately after the
header whose count is the colors-used field at offset 46 (zero meaning 2 ^
bit_depth); a palette region that is too short fails with
MissingColorTable.  Any truncation fails with UnexpectedEndOfFile. -/
def Header.parse (bytes : List Nat) :
    Except ParseError (Header × Option ColorTable) := do
  let b0 ← req (bytes.get? 0)
  let b1 ← req (bytes.get? 1)
  if b0 ≠ 0x42 ∨ b1 ≠ 0x4D then throw .InvalidFileSignature
  let file_size ← req (leU32 bytes 2)
  let image_data_start ← req (leU32 bytes 10)
  let hlen ← req (leU32 bytes 14)
  if hlen ≠ 40 ∧ hlen ≠ 124 then throw (.UnsupportedHeaderLength hlen)
  if bytes.length < 14 + hlen then throw .UnexpectedEndOfFile
  let width ← req (leU32 bytes 18)
  let heightRaw ← req (leU32 bytes 22)
  let bppRaw ← req (leU16 bytes 28)
  let compression ← req (leU32 bytes 30)
  let bpp ← match bppRaw with
    | 1 => pure Bpp.Bits1
    | 4 => pure Bpp.Bits4
    | 8 => pure Bpp.Bits8
    | 16 => pure Bpp.Bits16
    | 24 => pure Bpp.Bits24
    | 32 => pure Bpp.Bits32
    | n => throw (.UnsupportedBpp n)
  if compression ≠ 0 then throw (.UnsupportedCompressionMethod compression)
  let row_order := if heightRaw < 2 ^ 31 then RowOrder.BottomUp else RowOrder.TopDown
  let height := if heightRaw < 2 ^ 31 then heightRaw else 2 ^ 32 - heightRaw
  let channel_masks ←
    if hlen = 124 then do
      let mr ← req (leU32 bytes 54)
      let mg ← req (leU32 bytes 58)
      let mb ← req (leU32 bytes 62)
      let ma ← req (leU32 bytes 66)
      pure (some (ChannelMasks.mk mr mg mb ma))
    else
      pure (none : Option ChannelMasks)
  let color_table ←
    if bpp.bits ≤ 8 then do
      let colors_used ← req (leU32 bytes 46)
      let entries := if colors_used = 0 then 2 ^ bpp.bits else colors_used
      if bytes.length < 14 + hlen + 4 * entries then throw .MissingColorTable
      pure (some (ColorTable.mk ((bytes.drop (14 + hlen)).take (4 * entries))))
    else
      pure (none : Option ColorTable)
  pure ({ file_size, image_data_start, bpp, width, height,
          image_data_len := bytesPerRow width bpp * height,
          channel_masks, row_order }, color_table)

/-- Resolved pixel encoding, translated from src/src/raw_bmp.rs
lines 123-132. -/
inductive ColorType
  | Index1
  | Index4
  | Index8
  | Rgb555
  | Rgb565
  | Rgb888
  | Xrgb8888
deriving DecidableEq, Repr

/-- ColorType::from_header, translated from src/src/raw_bmp.rs lines
135-167: depths 1, 4, 8 map to the indexed types; 16-bit with masks accepts
exactly the RGB555 and RGB565 patterns and otherwise fails with
UnsupportedChannelMasks while absent masks default to Rgb555; 24-bit maps to
Rgb888; 32-bit accepts absent masks or exactly the RGB888 pattern as
Xrgb8888 and otherwise fails with UnsupportedChannelMasks. -/
def ColorType.from_header (h : Header) : Except ParseError ColorType :=
  match h.bpp with
  | .Bits1 => .ok .Index1
  | .Bits4 => .ok .Index4
  | .Bits8 => .ok .Index8
  | .Bits16 =>
    match h.channel_masks with
    | some masks =>
      if masks = ChannelMasks.RGB555 then .ok .Rgb555
      else if masks = ChannelMasks.RGB565 then .ok .Rgb565
      else .error .UnsupportedChannelMasks
    | none => .ok .Rgb555
  | .Bits24 => .ok .Rgb888
  | .Bits32 =>
    match h.channel_masks with
    | some masks =>
      if masks = ChannelMasks.RGB888 then .ok .Xrgb8888
      else .error .UnsupportedChannelMasks
    | none => .ok .Xrgb8888

/-- Low-level BMP access object, translated from src/src/raw_bmp.rs lines
18-34.  The image reader reference of the source (an optional borrowed
SliceReader over the file bytes) is modelled as an optional byte list. -/
structure RawBmp where
  header : Header
  color_type : ColorType
  color_table : Option ColorTable
  image_data : List Nat
  image_reader : Option (List Nat)
deriving DecidableEq, Repr

/-- RawBmp::from_slice, translated from src/src/raw_bmp.rs lines 41-59:
parse the header and optional color table, resolve the color type, then take
the image data region of bytes_per_row x height bytes starting at
image_data_start; when that region extends past the end of the slice the get
fails and from_slice returns UnexpectedEndOfFile.  The source leaves
image_reader as None on this path. -/
def RawBmp.from_slice (bytes : List Nat) : Except ParseError RawBmp :=
  match Header.parse bytes with
  | .error e => .error e
  | .ok (header, color_table) =>
    match ColorType.from_header header with
    | .error e => .error e
    | .ok color_type =>
      let data_length := header.bytes_per_row * header.height
      if header.image_data_start + data_length ≤ bytes.length then
        .ok { header, color_type, color_table,
              image_data := (bytes.drop header.image_data_start).take data_length,
              image_reader := none }
      else
        .error .UnexpectedEndOfFile

/-- RawBmp::from_reader, translated from src/src/raw_bmp.rs lines 68-93:
read the fixed 14-byte prefix through the reader, parse the declared size
and pixel-data start, reject a header longer than the caller buffer with
UnsupportedHeaderLength, read the full header region into the caller buffer
(overwriting its first image_data_start bytes and leaving its tail), parse
the buffer and resolve the color type.  The source keeps the reader (here
its byte list) and an empty image_data slice.  A source shorter than the
requested read would fault inside SliceReader::read; that truncation is
modelled as the unexpected-end-of-file failure and is never reached in the
theorems below. -/
def RawBmp.from_reader (readerData : List Nat) (header_buffer : List Nat) :
    Except ParseError RawBmp :=
  if readerData.length < 14 then .error .UnexpectedEndOfFile
  else
    match Header.parse_size (readerData.take 14) with
    | .error e => .error e
    | .ok (_file_size, image_data_start) =>
      if header_buffer.length < image_data_start then
        .error (.UnsupportedHeaderLength image_data_start)
      else if readerData.length < image_data_start then .error .UnexpectedEndOfFile
      else
        match Header.parse (readerData.take image_data_start ++
                            header_buffer.drop image_data_start) with
        | .error e => .error e
        | .ok (header, color_table) =>
          match ColorType.from_header header with
          | .error e => .error e
          | .ok color_type =>
            .ok { header, color_type, color_table,
                  image_data := [], image_reader := some readerData }

/-- Outcome of a read call: success with the copied bytes, a reader error,
or a fault (the source indexing its slice out of range, which panics). -/
inductive ReadOutcome
  | ok (bytes : List Nat)
  | err (e : BmpReaderError)
  | fault
deriving DecidableEq, Repr

/-- SliceReader::read, translated from src/src/reader.rs lines 71-81: the
requested size is the width of the range start..stop (ranges are well
formed, start at most stop); a destination buffer smaller than that fails
with BufferTooSmall; otherwise the source copies image_data[start..stop]
into the buffer, which faults when stop exceeds the slice length.  There is
no address-out-of-bounds error path in the source. -/
def SliceReader.read (data : List Nat) (start stop bufLen : Nat) : ReadOutcome :=
  let read_size := stop - start
  if bufLen < read_size then .err .BufferTooSmall
  else if data.length < stop then .fault
  else .ok ((data.drop start).take read_size)

/-- usize modulus. -/
def usizeW : Nat := 2 ^ 64

/-- core::usize::MAX, the sentinel used by SliceReaderIterator. -/
def usizeMAX : Nat := usizeW - 1

/-- Wrapping usize addition (release-mode Rust semantics). -/
def wadd (a b : Nat) : Nat := (a + b) % usizeW

/-- Wrapping usize subtraction (release-mode Rust semantics). -/
def wsub (a b : Nat) : Nat := (a + (usizeW - b % usizeW)) % usizeW

/-- SliceReader::INTERNAL_BUFFER_SIZE, src/src/reader.rs line 69. -/
def INTERNAL_BUFFER_SIZE : Nat := 200

/-- Bidirectional chunk iterator state, translated from src/src/reader.rs
lines 115-121: a reference to the reader byte slice, the forward cursor
index (starting at the usize MAX sentinel), the chunk stride, and the
backward cursor rindex (starting at the slice length). -/
structure SliceReaderIterator where
  data : List Nat
  index : Nat
  stride : Nat
  rindex : Nat
deriving DecidableEq, Repr

/-- Result of one iterator pull: a chunk (its start position and bytes), no
item, or a fault (buffered_read indexing the slice out of range). -/
inductive PullRes
  | yield (start : Nat) (bytes : List Nat)
  | stop
  | fault
deriving DecidableEq, Repr

/-- The chunk bytes buffered_read copies for range start..start+stride
(src/src/reader.rs lines 99-112; with stride at most the internal buffer
size the resize branch is dead): none when the range leaves the slice, in
which case the source faults. -/
def readChunk (data : List Nat) (start stride : Nat) : Option (List Nat) :=
  if start + stride ≤ data.length then some ((data.drop start).take stride)
  else none

/-- SliceReaderIterator::next, translated from src/src/reader.rs lines
126-141: advance the forward cursor (from the MAX sentinel to 0, otherwise
by stride), return no item when index + stride - 1 reaches rindex, else
yield the chunk at index via buffered_read. -/
def SliceReaderIterator.next (it : SliceReaderIterator) :
    PullRes × SliceReaderIterator :=
  let index := if it.index = usizeMAX then 0 else wadd it.index it.stride
  let it2 := { it with index }
  if it2.rindex ≤ wsub (wadd index it2.stride) 1 then (.stop, it2)
  else
    match readChunk it2.data index it2.stride with
    | some bs => (.yield index bs, it2)
    | none => (.fault, it2)

/-- SliceReaderIterator::next_back, translated from src/src/reader.rs lines
144-159: retreat the backward cursor (from 0 to the MAX sentinel, otherwise
by stride), return no item when the forward cursor has started and reaches
rindex - stride + 1, or when rindex is the MAX sentinel, else yield the
chunk at rindex via buffered_read. -/
def SliceReaderIterator.next_back (it : SliceReaderIterator) :
    PullRes × SliceReaderIterator :=
  let rindex := if it.rindex = 0 then usizeMAX else wsub it.rindex it.stride
  let it2 := { it with rindex }
  if (it2.index ≠ usizeMAX ∧ wadd (wsub rindex it2.stride) 1 ≤ it2.index) ∨
      rindex = usizeMAX then (.stop, it2)
  else
    match readChunk it2.data rindex it2.stride with
    | some bs => (.yield rindex bs, it2)
    | none => (.fault, it2)

/-- SliceReader::chunks_exact, translated from src/src/reader.rs lines
83-97: reject a stride above the internal buffer size with
RequestedChunkTooLarge, else start with the forward cursor at the MAX
sentinel and the backward cursor at the slice length. -/
def SliceReader.chunks_exact (data : List Nat) (stride : Nat) :
    Except BmpReaderError SliceReaderIterator :=
  if INTERNAL_BUFFER_SIZE < stride then .error .RequestedChunkTooLarge
  else .ok { data, index := usizeMAX, stride, rindex := data.length }

/-- Pull direction for a trace over the bidirectional iterator. -/
inductive Dir
  | fwd
  | bwd
deriving DecidableEq, Repr

/-- One pull in the given direction. -/
def SliceReaderIterator.pull (it : SliceReaderIterator) (d : Dir) :
    PullRes × SliceReaderIterator :=
  match d with
  | .fwd => it.next
  | .bwd => it.next_back

/-- Runs a sequence of interleaved forward and backward pulls, recording
each outcome (the Rust iterator may be pulled again after returning no
item, so the trace continues past stop results). -/
def runTrace (it : SliceReaderIterator) : List Dir → List (Dir × PullRes)
  | [] => []
  | d :: ds =>
    match it.pull d with
    | (r, it2) => (d, r) :: runTrace it2 ds

/-- Modelled from the spec: MSB-first unpacking of the eight 1-bit pixel
values in one byte (spec section 4.5: sub-byte depths unpack most
significant group first within a byte); the RawDataSlice unpacker used by
RawColors in src/src/raw_iter.rs comes from the external
embedded-graphics crate. -/
def unpack1 (b : Nat) : List Nat :=
  [b / 128 % 2, b / 64 % 2, b / 32 % 2, b / 16 % 2,
   b / 8 % 2, b / 4 % 2, b / 2 % 2, b % 2]

/-- Modelled from the spec: unpacking of one packed row into raw pixel
values per resolved bit depth (spec section 4.5): depths 1 and 4 unpack
several values per byte, most significant group first; 8-bit is one byte
per value; 16, 24 and 32-bit are little-endian multi-byte reads; an
incomplete trailing group yields no value. -/
def unpackRow : Bpp → List Nat → List Nat
  | _, [] => []
  | .Bits1, b :: rest => unpack1 b ++ unpackRow .Bits1 rest
  | .Bits4, b :: rest => b / 16 :: b % 16 :: unpackRow .Bits4 rest
  | .Bits8, b :: rest => b :: unpackRow .Bits8 rest
  | .Bits16, b0 :: b1 :: rest => (b0 + 256 * b1) :: unpackRow .Bits16 rest
  | .Bits16, _ => []
  | .Bits24, b0 :: b1 :: b2 :: rest =>
    (b0 + 256 * b1 + 65536 * b2) :: unpackRow .Bits24 rest
  | .Bits24, _ => []
  | .Bits32, b0 :: b1 :: b2 :: b3 :: rest =>
    (b0 + 256 * b1 + 65536 * b2 + 16777216 * b3) :: unpackRow .Bits32 rest
  | .Bits32, _ => []

/-- The position sequence of RawPixels, translated from src/src/raw_iter.rs
line 144: the points of the rectangle from the origin with the image size,
in row-major top-left-origin order; position i is (i mod width, i div
width). -/
def pointsList (width height : Nat) : List (Nat × Nat) :=
  (List.range (width * height)).map (fun i => (i % width, i / width))

/-- One row pull of RawColors::next, translated from src/src/raw_iter.rs
lines 98-101: with TopDown row order the next chunk is taken from the front
of the row chunk sequence, with BottomUp from the back. -/
def pullRow : RowOrder → List (List Nat) → Option (List Nat × List (List Nat))
  | .TopDown, [] => none
  | .TopDown, r :: rs => some (r, rs)
  | .BottomUp, rows =>
    match rows.getLast? with
    | none => none
    | some r => some (r, rows.dropLast)

/-- The pixel value stream produced by repeatedly calling RawColors::next
(src/src/raw_iter.rs lines 96-107) until it first returns no item: values
remaining in the current row are emitted one by one; when the current row is
empty the next row chunk is pulled (front for TopDown, back for BottomUp per
pullRow), unpacked and truncated to width values, and if that leaves no
value the iterator returns no item and the stream ends there.  The fuel
argument is the number of row chunks; pullRow consumes exactly one chunk per
pull, so the recursion never exhausts fuel early. -/
def rawColorsEmit (order : RowOrder) (width : Nat) (bpp : Bpp) :
    Nat → List (List Nat) → List Nat
  | 0, _ => []
  | fuel + 1, rows =>
    match pullRow order rows with
    | none => []
    | some (row, rest) =>
      let current_row := (unpackRow bpp row).take width
      if current_row.isEmpty then []
      else current_row ++ rawColorsEmit order width bpp fuel rest

/-- The full pixel value stream of a RawColors iterator started with an
empty current row (RawColors::new, src/src/raw_iter.rs line 81). -/
def rawColorsOutput (order : RowOrder) (width : Nat) (bpp : Bpp)
    (rows : List (List Nat)) : List Nat :=
  rawColorsEmit order width bpp rows.length rows

/-- The (position, raw color) stream of RawPixels, translated from
src/src/raw_iter.rs lines 161-174: each pull first takes the next raw color
and then the next position, stopping when either is exhausted, which is the
zip of the position list with the color stream. -/
def decodePixels (order : RowOrder) (width height : Nat) (bpp : Bpp)
    (rows : List (List Nat)) : List ((Nat × Nat) × Nat) :=
  List.zip (pointsList width height) (rawColorsOutput order width bpp rows)

/-- Splits a byte region into consecutive stride-sized chunks, dropping an
incomplete tail; the fuel argument (the region length) bounds the number of
chunks since each step consumes a positive stride of bytes. -/
def splitRowsAux (stride : Nat) : Nat → List Nat → List (List Nat)
  | 0, _ => []
  | fuel + 1, l =>
    if stride = 0 then []
    else if l.length < stride then []
    else l.take stride :: splitRowsAux stride fuel (l.drop stride)

/-- Modelled from the spec (section 4.4): the chunk sequence which
RawColors::new requests with chunks_exact(image_data_start, bytes_per_row)
(src/src/raw_iter.rs lines 67-71) covers the image data region in
stride-sized windows.  The two-argument chunks_exact implementation is not
under src/ (the reader.rs SliceReader has a one-argument earlier
iteration), so the chunk sequence is modelled as the region split into
stride rows. -/
def splitRows (stride : Nat) (l : List Nat) : List (List Nat) :=
  splitRowsAux stride l.length l

/-- The observable output of RawBmp::pixels (src/src/raw_bmp.rs line 115,
RawPixels::new in src/src/raw_iter.rs lines 133-152): none models the
source panicking in RawColors::new, which calls unwrap() on the optional
image_reader (src/src/raw_iter.rs line 69) - the from_slice path stores
None there, so pulling pixels on it faults (the commented-out iter1 slice
fallback in ChunkReaderWrapper::next, lines 46 and 52, is dead code).  With
a reader present, the row chunks come from chunks_exact over the image data
region (splitRows, modelled from the spec); a stride above the internal
buffer size makes chunks_exact fail, which RawColors::new turns into an
absent chunk iterator via ok(), so every pull returns no item and no pixel
is produced. -/
def RawBmp.pixelsOut (b : RawBmp) : Option (List ((Nat × Nat) × Nat)) :=
  match b.image_reader with
  | none => none
  | some rdata =>
    let stride := b.header.bytes_per_row
    let region := (rdata.drop b.header.image_data_start).take b.header.image_data_len
    let rows := if INTERNAL_BUFFER_SIZE < stride then [] else splitRows stride region
    some (decodePixels b.header.row_order b.header.width b.header.height
            b.header.bpp rows)

/-- Raw pixel value, translated from src/src/raw_iter.rs lines 179-185. -/
structure RawPixel where
  position : Nat × Nat
  color : Nat
deriving DecidableEq, Repr

/-- One step of the color-converting Pixels iterator, translated from
src/src/iter.rs lines 54-67: for the indexed color types the raw value is
looked up in the color table (an absent table ends the iteration via the
question mark operator; a lookup miss falls back to the default color,
zero/black, via unwrap_or_default); for the direct color types the raw bits
are reinterpreted, modelled by truncation to the 16-bit or 24-bit raw
color width. -/
def Pixels.step (ict : ColorType) (table : Option ColorTable) (rp : RawPixel) :
    Option ((Nat × Nat) × Nat) :=
  match ict with
  | .Index1 | .Index4 | .Index8 =>
    match table with
    | none => none
    | some t => some (rp.position, (t.get rp.color).getD 0)
  | .Rgb555 => some (rp.position, rp.color % 2 ^ 16)
  | .Rgb565 => some (rp.position, rp.color % 2 ^ 16)
  | .Rgb888 => some (rp.position, rp.color % 2 ^ 24)
  | .Xrgb8888 => some (rp.position, rp.color % 2 ^ 24)

/-- The converted pixel stream of the Pixels iterator over a raw pixel
stream, stopping at the first step that returns no item
(src/src/iter.rs lines 47-68). -/
def Pixels.run (ict : ColorType) (table : Option ColorTable) :
    List RawPixel → List ((Nat × Nat) × Nat)
  | [] => []
  | rp :: rest =>
    match Pixels.step ict table rp with
    | none => []
    | some p => p :: Pixels.run ict table rest

/-- Bmp::from_reader, translated from src/src/lib.rs lines 249-255: the
reader argument is ignored and a fixed 100-byte all-zero buffer is parsed
with RawBmp::from_slice (the Bmp wrapper adds only a phantom color type, so
the result is modelled by the underlying RawBmp). -/
def Bmp.from_reader {ρ : Type} (_reader : ρ) : Except ParseError RawBmp :=
  RawBmp.from_slice (List.replicate 100 0)

/-- Little-endian 4-byte encoding of a 32-bit value, for building the
concrete BMP files used in the theorems below. -/
def le32bytes (n : Nat) : List Nat :=
  [n % 256, n / 256 % 256, n / 65536 % 256, n / 16777216 % 256]

/-- A well-formed 2 x 2, 24-bit, bottom-up BMP file: 14-byte file header
(signature, file size 70, reserved, pixel data offset 54), 40-byte core DIB
header (width 2, height 2, one plane, 24 bpp, no compression, image size
16), and 16 data bytes (two 8-byte padded rows). -/
def bmpA : List Nat :=
  [0x42, 0x4D] ++ le32bytes 70 ++ le32bytes 0 ++ le32bytes 54 ++ le32bytes 40 ++
  le32bytes 2 ++ le32bytes 2 ++ [1, 0, 24, 0] ++ le32bytes 0 ++ le32bytes 16 ++
  le32bytes 0 ++ le32bytes 0 ++ le32bytes 0 ++ le32bytes 0 ++
  List.replicate 16 0xAB

/-- The header bmpA parses to. -/
def hdrA : Header :=
  { file_size := 70, image_data_start := 54, bpp := .Bits24, width := 2,
    height := 2, image_data_len := 16, channel_masks := none,
    row_order := .BottomUp }

/-- A well-formed 1 x 1, 32-bit BMP file: 54 header bytes (pixel data
offset 54, width 1, height 1, 32 bpp, no compression) and the single pixel
bytes 1, 2, 3, 4. -/
def bmpB : List Nat :=
  [0x42, 0x4D] ++ le32bytes 58 ++ le32bytes 0 ++ le32bytes 54 ++ le32bytes 40 ++
  le32bytes 1 ++ le32bytes 1 ++ [1, 0, 32, 0] ++ le32bytes 0 ++ le32bytes 4 ++
  le32bytes 0 ++ le32bytes 0 ++ le32bytes 0 ++ le32bytes 0 ++ [1, 2, 3, 4]

/-- A 2 x 2, 16-bit BMP file with a 124-byte mask-carrying DIB header whose
channel masks are 1, 2, 3, 0 (no supported pattern) and whose declared
pixel data region (starting at 138, 8 bytes long) lies entirely beyond the
end of the 138-byte file. -/
def bmpC : List Nat :=
  [0x42, 0x4D] ++ le32bytes 146 ++ le32bytes 0 ++ le32bytes 138 ++ le32bytes 124 ++
  le32bytes 2 ++ le32bytes 2 ++ [1, 0, 16, 0] ++ le32bytes 0 ++ le32bytes 8 ++
  le32bytes 0 ++ le32bytes 0 ++ le32bytes 0 ++ le32bytes 0 ++
  le32bytes 1 ++ le32bytes 2 ++ le32bytes 3 ++ le32bytes 0 ++
  List.replicate 68 0

/-- The single-row byte of the spec scenario for 1-bit unpacking:
0b10110000. -/
def c8row : List Nat := [176]

/-- A two-entry BGR0 palette holding black then white. -/
def paletteBW : ColorTable := ⟨[0, 0, 0, 0, 255, 255, 255, 0]⟩

/-- A 16-bit header with no channel masks, base for the C5 witness. -/
def hdr16base : Header :=
  { file_size := 0, image_data_start := 0, bpp := .Bits16, width := 0,
    height := 0, image_data_len := 0, channel_masks := none,
    row_order := .BottomUp }

/-- Helper for C2: the raw color stream of a BottomUp iteration over the
reversed row sequence equals that of a TopDown iteration over the original
row sequence. -/
theorem rawColorsOutput_reverse (width : Nat) (bpp : Bpp) (rows : List (List Nat)) :
    rawColorsOutput .BottomUp width bpp rows.reverse =
      rawColorsOutput .TopDown width bpp rows := by
  induction rows with
  | nil => rfl
  | cons r rs ih =>
    simp only [rawColorsOutput, List.length_reverse] at ih
    simp only [rawColorsOutput, List.reverse_cons, List.length_append,
      List.length_reverse, List.length_cons, List.length_nil, List.length_singleton]
    simp only [rawColorsEmit, pullRow, List.getLast?_concat, List.dropLast_concat]
    rw [ih]

/-- C1: the claim states that for every successfully parsed BMP image the
iterator from RawBmp::pixels yields exactly width x height pixels covering
the rectangle in row-major order.  The code violates this: RawColors::new
(src/src/raw_iter.rs line 69) unwraps the optional image_reader, which
RawBmp::from_slice leaves as None, so requesting the pixels of any
successfully slice-parsed image panics and yields no pixel at all.  This
theorem evaluates the code at a failing input: the well-formed 2 x 2 24-bit
file bmpA parses successfully (with image_reader None), yet its pixel
stream is the fault outcome (none) instead of a 4-element list. -/
theorem c1_from_slice_pixels_fault :
    (RawBmp.from_slice bmpA).toOption.map
        (fun b => (b.header.width, b.header.height, b.image_reader, b.pixelsOut)) =
      some (2, 2, none, none) := rfl

/-- C2: a BottomUp file and a TopDown file storing the same logical image
decode to identical (position, raw color) sequences: the decoder pulls row
chunks from the front of the chunk sequence for TopDown and from the back
for BottomUp, so the output is canonical top-down either way.  rows is the
logical image as its top-down row chunks; the BottomUp file stores them
reversed. -/
theorem c2_row_order_equivalence (width height : Nat) (bpp : Bpp)
    (rows : List (List Nat)) :
    decodePixels .BottomUp width height bpp rows.reverse =
      decodePixels .TopDown width height bpp rows := by
  unfold decodePixels
  rw [rawColorsOutput_reverse]

/-- Witness for C2 at a concrete 2 x 2 8-bit image. -/
theorem c2_row_order_equivalence_witness :
    decodePixels .BottomUp 2 2 .Bits8 [[1, 2], [3, 4]].reverse =
      decodePixels .TopDown 2 2 .Bits8 [[1, 2], [3, 4]] :=
  c2_row_order_equivalence 2 2 .Bits8 [[1, 2], [3, 4]]

/-- C3: the claim states that decoding the same bytes through the
slice-backed path and through the streaming-reader path yields identical
output sequences.  The code violates this: on the well-formed 1 x 1 32-bit
file bmpB the slice path parses successfully but faults when its pixels are
requested (image_reader is None and RawColors::new unwraps it), yielding no
pixels, while the reader path decodes the single pixel ((0,0), 0x04030201).
-/
theorem c3_slice_reader_divergence :
    (RawBmp.from_slice bmpB).toOption.map RawBmp.pixelsOut = some none ∧
    (RawBmp.from_reader bmpB (List.replicate 64 0)).toOption.map RawBmp.pixelsOut =
      some (some [((0, 0), 67305985)]) :=
  ⟨rfl, rfl⟩

/-- Counterexample for C4: bmpC parses successfully and its header declares
image_data_start + image_data_len = 146, beyond its 138-byte length, yet
RawBmp::from_slice returns UnsupportedChannelMasks, not UnexpectedEndOfFile,
because the color type resolver rejects its 16-bit channel masks (1, 2, 3, 0)
before the bounds check runs. -/
theorem c4_resolver_preempts_eof :
    (Header.parse bmpC).toOption.map
        (fun p => (p.1.image_data_start + p.1.image_data_len, bmpC.length)) =
      some (146, 138) ∧
    RawBmp.from_slice bmpC = .error .UnsupportedChannelMasks :=
  ⟨rfl, rfl⟩

/-- C4 (amended): for every input whose header parses and whose color type
resolves, if the declared pixel data region image_data_start +
bytes_per_row x height extends beyond the slice length then
RawBmp::from_slice returns UnexpectedEndOfFile, so no decoding session is
constructed and no pixel is produced (when the resolver rejects the header,
the resolver error is reported instead, as the counterexample shows). -/
theorem c4_truncated_data_eof (bytes : List Nat) (h : Header)
    (ct : Option ColorTable) (c : ColorType)
    (hp : Header.parse bytes = .ok (h, ct))
    (hc : ColorType.from_header h = .ok c)
    (hlen : bytes.length < h.image_data_start + h.bytes_per_row * h.height) :
    RawBmp.from_slice bytes = .error .UnexpectedEndOfFile := by
  unfold RawBmp.from_slice
  rw [hp]
  simp only
  rw [hc]
  simp only
  rw [if_neg (by omega)]

/-- Witness for C4 (amended): the 2 x 2 24-bit header of bmpA with the
pixel data cut off fails with UnexpectedEndOfFile. -/
theorem c4_truncated_data_eof_witness :
    RawBmp.from_slice (bmpA.take 54) = .error .UnexpectedEndOfFile :=
  c4_truncated_data_eof (bmpA.take 54) hdrA none .Rgb888 rfl rfl (by decide)

/-- C5: for every header with bit depth 16, the color type resolver returns
Rgb555 for the RGB555 mask pattern, Rgb565 for the RGB565 pattern,
UnsupportedChannelMasks for any other mask combination, and Rgb555 when no
masks are present. -/
theorem c5_bits16_color_type (h : Header) (hb : h.bpp = .Bits16) :
    (h.channel_masks = some ChannelMasks.RGB555 →
      ColorType.from_header h = .ok .Rgb555) ∧
    (h.channel_masks = some ChannelMasks.RGB565 →
      ColorType.from_header h = .ok .Rgb565) ∧
    (∀ m, h.channel_masks = some m → m ≠ ChannelMasks.RGB555 →
      m ≠ ChannelMasks.RGB565 →
      ColorType.from_header h = .error .UnsupportedChannelMasks) ∧
    (h.channel_masks = none → ColorType.from_header h = .ok .Rgb555) := by
  refine ⟨fun hm => ?_, fun hm => ?_, fun m hm h5 h6 => ?_, fun hm => ?_⟩
  · unfold ColorType.from_header
    rw [hb, hm]
    rfl
  · unfold ColorType.from_header
    rw [hb, hm]
    rfl
  · unfold ColorType.from_header
    rw [hb, hm]
    simp only
    rw [if_neg h5, if_neg h6]
  · unfold ColorType.from_header
    rw [hb, hm]

/-- Witness for C5 at the three mask shapes, applied to concrete 16-bit
headers. -/
theorem c5_bits16_color_type_witness :
    ColorType.from_header
        { hdr16base with channel_masks := some ChannelMasks.RGB565 } =
      .ok .Rgb565 ∧
    ColorType.from_header
        { hdr16base with channel_masks := some (ChannelMasks.mk 1 2 3 0) } =
      .error .UnsupportedChannelMasks ∧
    ColorType.from_header hdr16base = .ok .Rgb555 :=
  ⟨(c5_bits16_color_type _ rfl).2.1 rfl,
   (c5_bits16_color_type _ rfl).2.2.1 (ChannelMasks.mk 1 2 3 0) rfl
     (by decide) (by decide),
   (c5_bits16_color_type _ rfl).2.2.2 rfl⟩

/-- Counterexample for C6: the claim states that a read whose range exceeds
the source extent fails with an AddressOutOfBounds error rather than
faulting.  The code violates this: BmpReaderError (src/src/reader.rs lines
36-46) has no address-out-of-bounds variant at all, and SliceReader::read
performs no bounds check before indexing its slice, so reading range 2..10
of a 4-byte source with an 8-byte destination faults (panics) instead of
returning an error. -/
theorem c6_read_out_of_range_faults :
    SliceReader.read [0, 1, 2, 3] 2 10 8 = .fault := rfl

/-- C6 (amended): for every well-formed byte range, SliceReader::read fails
with BufferTooSmall when the destination buffer is smaller than the range;
when the destination is large enough but the range exceeds the source
extent it faults (panics) rather than returning an error; otherwise it
copies exactly the requested bytes into the destination. -/
theorem c6_read_behavior (data : List Nat) (start stop bufLen : Nat)
    (hr : start ≤ stop) :
    (bufLen < stop - start →
      SliceReader.read data start stop bufLen = .err .BufferTooSmall) ∧
    (stop - start ≤ bufLen → data.length < stop →
      SliceReader.read data start stop bufLen = .fault) ∧
    (stop - start ≤ bufLen → stop ≤ data.length →
      SliceReader.read data start stop bufLen =
        .ok ((data.drop start).take (stop - start)) ∧
      ((data.drop start).take (stop - start)).length = stop - start) := by
  unfold SliceReader.read
  refine ⟨fun h1 => ?_, fun h1 h2 => ?_, fun h1 h2 => ?_⟩
  · simp only [if_pos h1]
  · rw [if_neg (by omega), if_pos h2]
  · rw [if_neg (by omega), if_neg (by omega)]
    refine ⟨rfl, ?_⟩
    simp only [List.length_take, List.length_drop]
    omega

/-- Witness for C6 (amended) at concrete reads: an in-range copy and a
too-small destination. -/
theorem c6_read_behavior_witness :
    SliceReader.read [5, 6, 7, 8] 1 3 10 = .ok [6, 7] ∧
    SliceReader.read [5, 6, 7, 8] 0 4 2 = .err .BufferTooSmall := by
  constructor
  · have h := (c6_read_behavior [5, 6, 7, 8] 1 3 10 (by decide)).2.2
      (by decide) (by decide)
    rw [h.1]
    rfl
  · exact (c6_read_behavior [5, 6, 7, 8] 0 4 2 (by decide)).1 (by decide)

/-- C7: the claim states that forward and backward pulls on the chunk
iterator never yield overlapping byte positions and that an exhausted
direction stays exhausted.  The code violates this: over the 4-byte source
with stride 2, the pulls back, back, back, forward yield the chunk at
positions 0..2 twice - once backward and, after the third backward pull has
reset rindex to the usize MAX sentinel, once forward, since the forward
guard index + stride - 1 at least rindex can never trip against the MAX
sentinel.  The cursors cross and bytes 0 and 1 appear in chunks of both
directions. -/
theorem c7_cursors_cross :
    (SliceReader.chunks_exact [0, 1, 2, 3] 2).toOption.map
        (fun it => runTrace it [.bwd, .bwd, .bwd, .fwd]) =
      some [(.bwd, .yield 2 [2, 3]), (.bwd, .yield 0 [0, 1]),
            (.bwd, .stop), (.fwd, .yield 0 [0, 1])] := rfl

/-- C8: sub-byte depths unpack most significant group first and each row is
truncated to width values: the 1-bit row byte 0b10110000 with width 5
decodes at y = 0 to the index sequence 1, 0, 1, 1, 0 (the full byte unpacks
to 8 values, the 3 padding bits being dropped by the truncation), and the
two-entry black/white palette resolves those indices to white, black,
white, white, black. -/
theorem c8_bit1_unpacking :
    decodePixels .BottomUp 5 1 .Bits1 [c8row] =
      [((0, 0), 1), ((1, 0), 0), ((2, 0), 1), ((3, 0), 1), ((4, 0), 0)] ∧
    (unpackRow .Bits1 c8row).length = 8 ∧
    (decodePixels .BottomUp 5 1 .Bits1 [c8row]).map
        (fun p => (ColorTable.get paletteBW p.2).getD 0) =
      [16777215, 0, 16777215, 16777215, 0] :=
  ⟨rfl, rfl, rfl⟩

/-- Helper for C9: with a color table present, the converting iterator
never stops early on an indexed image - its output has one pixel per raw
pixel. -/
theorem pixelsRunIndexedLength (ict : ColorType) (t : ColorTable)
    (hict : ict = .Index1 ∨ ict = .Index4 ∨ ict = .Index8)
    (l : List RawPixel) :
    (Pixels.run ict (some t) l).length = l.length := by
  induction l with
  | nil => rcases hict with h | h | h <;> subst h <;> rfl
  | cons rp rest ih =>
    rcases hict with h | h | h <;> subst h <;>
      simpa [Pixels.run, Pixels.step] using ih

/-- C9: on an indexed image with a parsed color table, a raw pixel whose
palette index is out of range resolves to the fallback color zero (black)
and iteration continues - the remaining raw pixels are still converted and
the output keeps one pixel per input pixel. -/
theorem c9_palette_fallback (ict : ColorType) (t : ColorTable) (rp : RawPixel)
    (rest : List RawPixel)
    (hict : ict = .Index1 ∨ ict = .Index4 ∨ ict = .Index8)
    (hbad : t.entryCount ≤ rp.color) :
    Pixels.run ict (some t) (rp :: rest) =
      (rp.position, 0) :: Pixels.run ict (some t) rest ∧
    (Pixels.run ict (some t) (rp :: rest)).length = rest.length + 1 := by
  have hget : t.get rp.color = none := by
    unfold ColorTable.get
    rw [if_neg (by omega)]
  have hstep : Pixels.step ict (some t) rp = some (rp.position, 0) := by
    rcases hict with h | h | h <;> subst h <;> simp [Pixels.step, hget]
  constructor
  · rcases hict with h | h | h <;> subst h <;> simp [Pixels.run, hstep]
  · have hlen := pixelsRunIndexedLength ict t hict (rp :: rest)
    simpa using hlen

/-- Witness for C9: the out-of-range index 7 against the two-entry palette
falls back to black and the following in-range pixel is still produced. -/
theorem c9_palette_fallback_witness :
    Pixels.run .Index8 (some paletteBW) [⟨(0, 0), 7⟩, ⟨(1, 0), 1⟩] =
      [((0, 0), 0), ((1, 0), 16777215)] := by
  have h := c9_palette_fallback .Index8 paletteBW ⟨(0, 0), 7⟩ [⟨(1, 0), 1⟩]
    (Or.inr (Or.inr rfl)) (by decide)
  rw [h.1]
  rfl

/-- C10: Bmp::from_reader never reads from the reader it is given - for any
two readers of any types the result is identical, because the source parses
a fixed 100-byte all-zero buffer instead, and that buffer fails the BM
signature check, so the call always returns a parse error and never a valid
bitmap. -/
theorem c10_from_reader_ignores_reader :
    (∀ (ρ ρ2 : Type) (r : ρ) (r2 : ρ2), Bmp.from_reader r = Bmp.from_reader r2) ∧
    (∀ (ρ : Type) (r : ρ), Bmp.from_reader r = .error .InvalidFileSignature) :=
  ⟨fun _ _ _ _ => rfl, fun _ _ => rfl⟩

/-- Witness for C10 at a concrete reader value. -/
theorem c10_from_reader_ignores_reader_witness :
    Bmp.from_reader (0 : Nat) = .error .InvalidFileSignature :=
  c10_from_reader_ignores_reader.2 Nat 0
